import Mathlib

/-!
Shallow embedding of the VaultBot repository (src/Vault.py, src/database.py).

The SQLite tables of database.py are modelled as in-memory lists of rows;
each database function is translated into a pure function from the old
DB value to the new one, returning the same result the Python function
returns.  The per-user Telegram session state of Vault.py
(context.user_data, the module-level user_activity and user_last_messages
dictionaries) is modelled as association lists inside a BotState record,
and every handler is a pure state transformer returning the user-visible
reply.  External effects (bcrypt salts, message ids assigned by the chat
platform, the speech-to-text response, the wall clock) enter as explicit
parameters.
-/

/-- Models the bcrypt library contract used by database.py at the level the
code relies on: hashpw couples the fresh salt with the password, and checkpw
accepts exactly the password the hash was created from. -/
structure PasswordHash where
  salt : Nat
  pw : String
deriving DecidableEq

def hashpw (password : String) (salt : Nat) : PasswordHash :=
  PasswordHash.mk salt password

def checkpw (password : String) (h : PasswordHash) : Bool :=
  password == h.pw

/-- One row of the memos table (database.py init_db). -/
structure MemoRow where
  id : Nat
  user_id : Nat
  file_id : String
  date : Nat
  transcription : Option String
  summary : Option String
deriving DecidableEq

/-- One row of the users table (database.py init_db). -/
structure UserRow where
  user_id : Nat
  master_password_hash : PasswordHash
deriving DecidableEq

/-- The vaultbot.db database: users table, memos table, and the next value of
the AUTOINCREMENT id of memos. -/
structure DB where
  users : List UserRow
  memos : List MemoRow
  next_memo_id : Nat
deriving DecidableEq

/-- SELECT over users by primary key, as done by user_exists and
verify_master_password. -/
def lookup_user (db : DB) (uid : Nat) : Option UserRow :=
  db.users.find? (fun u => u.user_id == uid)

/-- database.py user_exists: fetchone is not None. -/
def user_exists (db : DB) (uid : Nat) : Bool :=
  (lookup_user db uid).isSome

/-- database.py set_master_password.  INSERT OR REPLACE on the primary key
user_id: any previous row of this user is replaced.  The salt drawn by
bcrypt.gensalt is an explicit parameter. -/
def set_master_password (db : DB) (uid : Nat) (password : String) (salt : Nat) :
    DB × Bool :=
  ({ db with users := db.users.filter (fun u => u.user_id != uid)
      ++ [UserRow.mk uid (hashpw password salt)] }, true)

/-- database.py verify_master_password: no row gives False, otherwise
bcrypt.checkpw against the stored hash. -/
def verify_master_password (db : DB) (uid : Nat) (password : String) : Bool :=
  match lookup_user db uid with
  | none => false
  | some row => checkpw password row.master_password_hash

/-- database.py save_voice_memo: INSERT of a fresh row; id is assigned by
AUTOINCREMENT, date by CURRENT_TIMESTAMP (explicit parameter here). -/
def save_voice_memo (db : DB) (uid : Nat) (fid : String) (date : Nat) :
    DB × Bool :=
  ({ db with
      memos := db.memos ++ [MemoRow.mk db.next_memo_id uid fid date none none],
      next_memo_id := db.next_memo_id + 1 }, true)

/-- Insertion step of the ORDER BY date DESC model: place the row before
the first row with a strictly smaller date. -/
def insertByDateDesc (m : MemoRow) : List MemoRow → List MemoRow
  | [] => [m]
  | h :: t => if h.date < m.date then m :: h :: t else h :: insertByDateDesc m t

/-- ORDER BY date DESC of SQLite, modelled as an insertion sort (SQLite
promises only the ordering, not a particular stable permutation). -/
def sortByDateDesc : List MemoRow → List MemoRow
  | [] => []
  | h :: t => insertByDateDesc h (sortByDateDesc t)

/-- database.py get_user_memos: SELECT ... WHERE user_id = ? ORDER BY date
DESC. -/
def get_user_memos (db : DB) (uid : Nat) : List MemoRow :=
  sortByDateDesc (db.memos.filter (fun m => m.user_id == uid))

/-- The row selected by the WHERE id = ? AND user_id = ? queries of
database.py (fetchone takes the first match). -/
def memo_row (db : DB) (mid uid : Nat) : Option MemoRow :=
  db.memos.find? (fun m => m.id == mid && m.user_id == uid)

/-- database.py get_memo_file_id. -/
def get_memo_file_id (db : DB) (mid uid : Nat) : Option String :=
  (memo_row db mid uid).map (fun m => m.file_id)

/-- database.py delete_memo: DELETE ... WHERE id = ? AND user_id = ?;
success is rowcount > 0, that is, at least one row was removed. -/
def delete_memo (db : DB) (mid uid : Nat) : DB × Bool :=
  let remaining := db.memos.filter (fun m => !(m.id == mid && m.user_id == uid))
  ({ db with memos := remaining },
    decide (remaining.length < db.memos.length))

/-- UPDATE memos SET transcription = ? WHERE id = ? AND user_id = ?
(Vault.py transcribe_memo_handler). -/
def set_transcription (db : DB) (mid uid : Nat) (text : String) : DB :=
  { db with memos := db.memos.map (fun m =>
      if m.id == mid && m.user_id == uid
      then { m with transcription := some text } else m) }

/-- UPDATE memos SET summary = ? WHERE id = ? AND user_id = ?
(Vault.py summarize_memo_handler). -/
def set_summary (db : DB) (mid uid : Nat) (text : String) : DB :=
  { db with memos := db.memos.map (fun m =>
      if m.id == mid && m.user_id == uid
      then { m with summary := some text } else m) }

/-- SELECT transcription FROM memos WHERE id = ? AND user_id = ?: the outer
Option is row presence, the inner Option is SQL NULL. -/
def get_transcription (db : DB) (mid uid : Nat) : Option (Option String) :=
  (memo_row db mid uid).map (fun m => m.transcription)

/-- The database write operations the bot performs, for stating invariants
quantified over every operation. -/
inductive DbOp where
  | setPassword (uid : Nat) (password : String) (salt : Nat)
  | saveMemo (uid : Nat) (fid : String) (date : Nat)
  | deleteMemo (mid uid : Nat)
  | writeTranscription (mid uid : Nat) (text : String)
  | writeSummary (mid uid : Nat) (text : String)
deriving DecidableEq

def applyOp (db : DB) : DbOp → DB
  | DbOp.setPassword uid p salt => (set_master_password db uid p salt).1
  | DbOp.saveMemo uid fid date => (save_voice_memo db uid fid date).1
  | DbOp.deleteMemo mid uid => (delete_memo db mid uid).1
  | DbOp.writeTranscription mid uid t => set_transcription db mid uid t
  | DbOp.writeSummary mid uid t => set_summary db mid uid t

/-- conversation-state constants of Vault.py: AWAITING_PASSWORD = 1,
AWAITING_LOGIN = 2, AWAITING_VOICE = 3; None is modelled by Option. -/
inductive ConvState where
  | awaiting_password
  | awaiting_login
  | awaiting_voice
deriving DecidableEq

/-- context.user_data of one user: the keys the handlers use. -/
structure UserData where
  state : Option ConvState
  authenticated : Bool
deriving DecidableEq

/-- A user with no entry: dict.get returns None / falsy. -/
def UserData.empty : UserData :=
  UserData.mk none false

/-- Python dict lookup over an association list keyed by user id. -/
def mapLookup {β : Type} (m : List (Nat × β)) (k : Nat) : Option β :=
  (m.find? (fun p => p.1 == k)).map (fun p => p.2)

/-- Python dict assignment: any previous binding of the key is replaced. -/
def mapInsert {β : Type} (m : List (Nat × β)) (k : Nat) (v : β) :
    List (Nat × β) :=
  m.filter (fun p => p.1 != k) ++ [(k, v)]

/-- Python del dict entry (a no-op here when the key is absent; the callers
in Vault.py guard with an in-check first). -/
def mapErase {β : Type} (m : List (Nat × β)) (k : Nat) : List (Nat × β) :=
  m.filter (fun p => p.1 != k)

/-- The whole mutable state of the running bot process: the database plus
the three per-user dictionaries of Vault.py. -/
structure BotState where
  db : DB
  user_data : List (Nat × UserData)
  user_activity : List (Nat × Nat)
  user_last_messages : List (Nat × List Nat)
deriving DecidableEq

def getUserData (s : BotState) (uid : Nat) : UserData :=
  (mapLookup s.user_data uid).getD UserData.empty

def setUserData (s : BotState) (uid : Nat) (d : UserData) : BotState :=
  { s with user_data := mapInsert s.user_data uid d }

/-- Vault.py update_user_activity. -/
def update_user_activity (s : BotState) (uid now : Nat) : BotState :=
  { s with user_activity := mapInsert s.user_activity uid now }

/-- Vault.py check_inactivity: collect the users whose last activity is more
than 300 seconds old, then delete them from user_activity and
user_last_messages.  context.user_data is not touched. -/
def check_inactivity (s : BotState) (now : Nat) : BotState :=
  let inactive := (s.user_activity.filter (fun p => 300 < now - p.2)).map
    (fun p => p.1)
  { s with
      user_activity := s.user_activity.filter (fun p => !(300 < now - p.2)),
      user_last_messages := s.user_last_messages.filter
        (fun p => !(inactive.contains p.1)) }

/-- Vault.py cleanup_old_messages, success path of every chat deletion:
every tracked message except the excluded one is deleted from the chat and
dropped from the list; afterwards a list longer than 10 is cut to its last
5 entries.  Message ids are unique, so the removal loop amounts to keeping
only the excluded id. -/
def cleanup_old_messages (s : BotState) (uid : Nat) (exclude : Option Nat) :
    BotState :=
  match mapLookup s.user_last_messages uid with
  | none => s
  | some msgs =>
    let kept := msgs.filter (fun m => exclude == some m)
    let kept2 := if 10 < kept.length then kept.drop (kept.length - 5) else kept
    { s with user_last_messages := mapInsert s.user_last_messages uid kept2 }

/-- The pattern user_last_messages[user_id].append(message.message_id) that
follows each reply_text call. -/
def append_message (s : BotState) (uid msgId : Nat) : BotState :=
  let msgs := (mapLookup s.user_last_messages uid).getD []
  let lm := mapInsert s.user_last_messages uid (msgs ++ [msgId])
  { s with user_last_messages := lm }

/-- The user-visible outcome of a handler: which reply or toast the bot
produces. -/
inductive Reply where
  | welcome
  | setPasswordPrompt
  | loginPrompt
  | needSetupFirst
  | tooShortPassword
  | passwordSetOk
  | passwordSetFailed
  | accessGranted
  | incorrectPassword
  | unlockFirst
  | readyToRecord
  | memoSaved
  | memoSaveFailed
  | pleaseUnlockAndNewMemo
  | memosEmpty
  | memosList (ids : List Nat)
  | toastInvalidMemoId
  | toastMemoNotFound
  | playingMemo (mid : Nat)
  | toastDeleteFailed
  | helpShown
  | locked
  | menuShown
  | noReply
  | aiNotConfigured
  | invalidMemoIdMessage
  | memoNotFoundMessage
  | alreadyTranscribed (t : String)
  | transcriptionDone (t : String)
  | transcriptionEmpty
  | transcriptionFailed
deriving DecidableEq


/-- Character equality through code points, kernel-computable. -/
def charEq (a b : Char) : Bool :=
  a.toNat == b.toNat

/-- List-of-characters prefix test. -/
def isPrefixList : List Char → List Char → Bool
  | [], _ => true
  | _ :: _, [] => false
  | a :: t1, b :: t2 => charEq a b && isPrefixList t1 t2

/-- Python str.startswith. -/
def pyStartsWith (s pre : String) : Bool :=
  isPrefixList pre.data s.data

/-- Worker of pyReplace: skip counts characters already consumed by a
replaced occurrence; on a fresh match the replacement is emitted and the
search continues after the matched segment, as Python str.replace does. -/
def replaceGo (pat rep : List Char) : Nat → List Char → List Char
  | _, [] => []
  | n + 1, _ :: rest => replaceGo pat rep n rest
  | 0, c :: rest =>
    if !pat.isEmpty && isPrefixList pat (c :: rest) then
      rep ++ replaceGo pat rep (pat.length - 1) rest
    else
      c :: replaceGo pat rep 0 rest

/-- Python str.replace with a non-empty pattern: every occurrence is
replaced, left to right. -/
def pyReplace (s pat rep : String) : String :=
  String.mk (replaceGo pat.data rep.data 0 s.data)

/-- Python str.split with a one-character separator. -/
def splitOnChar (sep : Char) : List Char → List (List Char)
  | [] => [[]]
  | c :: rest =>
    let r := splitOnChar sep rest
    if charEq c sep then [] :: r
    else
      match r with
      | [] => [[c]]
      | h :: t => (c :: h) :: t

/-- Python int() on the strings this bot produces: a non-empty run of
decimal digits parses to its value, anything else raises ValueError,
modelled as none.  (int additionally accepts surrounding whitespace, a sign
and underscore separators; no payload of this bot contains those.) -/
def pyInt (s : String) : Option Nat :=
  if !s.data.isEmpty && s.data.all (fun c => 48 ≤ c.toNat && c.toNat ≤ 57) then
    some (s.data.foldl (fun acc c => acc * 10 + (c.toNat - 48)) 0)
  else none

def isPySpace (c : Char) : Bool :=
  c.toNat == 32 || c.toNat == 9 || c.toNat == 10 || c.toNat == 13
    || c.toNat == 11 || c.toNat == 12

/-- Python str.strip with no argument: whitespace removed from both ends. -/
def pyStrip (s : String) : String :=
  String.mk (((s.data.dropWhile isPySpace).reverse.dropWhile isPySpace).reverse)

/-- Vault.py VaultBot.start_bot: only context.user_data is changed, and only
its state key. -/
def start_bot (s : BotState) (uid : Nat) : BotState × Reply :=
  if !(user_exists s.db uid) then
    (setUserData s uid
      (UserData.mk (some ConvState.awaiting_password)
        (getUserData s uid).authenticated),
      Reply.setPasswordPrompt)
  else
    (setUserData s uid
      (UserData.mk (some ConvState.awaiting_login)
        (getUserData s uid).authenticated),
      Reply.loginPrompt)

/-- Vault.py VaultBot.unlock_vault. -/
def unlock_vault (s : BotState) (uid : Nat) : BotState × Reply :=
  if user_exists s.db uid then
    (setUserData s uid
      (UserData.mk (some ConvState.awaiting_login)
        (getUserData s uid).authenticated),
      Reply.loginPrompt)
  else
    (s, Reply.needSetupFirst)

/-- Vault.py VaultBot.handle_password_input.  The length check uses Python
len, the number of code points of the string, matching String.length.  The
salt of set_master_password and the id of the reply message are explicit
parameters. -/
def handle_password_input (s : BotState) (uid : Nat) (password : String)
    (salt msgId : Nat) : BotState × Reply :=
  if password.length < 6 then
    (append_message s uid msgId, Reply.tooShortPassword)
  else
    let r := set_master_password s.db uid password salt
    if r.2 then
      (setUserData (append_message { s with db := r.1 } uid msgId) uid
        (UserData.mk none true), Reply.passwordSetOk)
    else
      (append_message { s with db := r.1 } uid msgId, Reply.passwordSetFailed)

/-- Vault.py VaultBot.handle_login_input. -/
def handle_login_input (s : BotState) (uid : Nat) (password : String)
    (msgId : Nat) : BotState × Reply :=
  if verify_master_password s.db uid password then
    (setUserData (append_message s uid msgId) uid (UserData.mk none true),
      Reply.accessGranted)
  else
    (append_message s uid msgId, Reply.incorrectPassword)

/-- Vault.py VaultBot.handle_voice_message: activity update and message
cleanup happen before the authentication gate. -/
def handle_voice_message (s : BotState) (uid now : Nat) (fid : String)
    (date msgId : Nat) : BotState × Reply :=
  let s1 := cleanup_old_messages (update_user_activity s uid now) uid none
  let d := getUserData s1 uid
  if !(d.authenticated && d.state == some ConvState.awaiting_voice) then
    (append_message s1 uid msgId, Reply.pleaseUnlockAndNewMemo)
  else
    let r := save_voice_memo s1.db uid fid date
    if r.2 then
      (setUserData (append_message { s1 with db := r.1 } uid msgId) uid
        (UserData.mk none d.authenticated), Reply.memoSaved)
    else
      (append_message { s1 with db := r.1 } uid msgId, Reply.memoSaveFailed)

/-- Vault.py VaultBot.new_memo_handler. -/
def new_memo_handler (s : BotState) (uid : Nat) : BotState × Reply :=
  let d := getUserData s uid
  if !d.authenticated then
    (s, Reply.unlockFirst)
  else
    (setUserData s uid (UserData.mk (some ConvState.awaiting_voice)
      d.authenticated), Reply.readyToRecord)

/-- Vault.py VaultBot.my_memos_handler. -/
def my_memos_handler (s : BotState) (uid : Nat) : BotState × Reply :=
  let d := getUserData s uid
  if !d.authenticated then
    (s, Reply.unlockFirst)
  else
    let memos := get_user_memos s.db uid
    if memos.isEmpty then (s, Reply.memosEmpty)
    else (s, Reply.memosList (memos.map (fun m => m.id)))

/-- Vault.py VaultBot.listen_memo_handler.  The memo id is parsed by
int(query.data.replace(...)); ValueError is the none branch.  The ids of
the two messages the success path sends are parameters. -/
def listen_memo_handler (s : BotState) (uid : Nat) (data : String)
    (curMsgId voiceMsgId optionsMsgId : Nat) : BotState × Reply :=
  match pyInt (pyReplace data ("listen_") ("")) with
  | none => (s, Reply.toastInvalidMemoId)
  | some mid =>
    match get_memo_file_id s.db mid uid with
    | none => (s, Reply.toastMemoNotFound)
    | some _ =>
      let s1 := append_message (append_message s uid voiceMsgId) uid
        optionsMsgId
      let msgs := (mapLookup s1.user_last_messages uid).getD []
      let lm := mapInsert s1.user_last_messages uid
        (msgs.filter (fun m => m != curMsgId))
      let s2 := { s1 with user_last_messages := lm }
      (s2, Reply.playingMemo mid)

/-- Vault.py VaultBot.delete_memo_handler: on success the memo list is
refreshed through my_memos_handler. -/
def delete_memo_handler (s : BotState) (uid : Nat) (data : String) :
    BotState × Reply :=
  match pyInt (pyReplace data ("delete_") ("")) with
  | none => (s, Reply.toastInvalidMemoId)
  | some mid =>
    let r := delete_memo s.db mid uid
    let s1 := { s with db := r.1 }
    if r.2 then my_memos_handler s1 uid
    else (s1, Reply.toastDeleteFailed)

/-- Vault.py VaultBot.lock_handler. -/
def lock_handler (s : BotState) (uid : Nat) : BotState × Reply :=
  let s1 := setUserData s uid (UserData.mk none false)
  let s2 := { s1 with user_activity := mapErase s1.user_activity uid }
  (cleanup_old_messages s2 uid none, Reply.locked)

/-- Vault.py VaultBot.inline_button_handler: every callback first refreshes
the activity timestamp and prunes tracked messages, then routes on the
callback data.  transcribe_ and summarize_ payloads with a purely numeric id
are captured by dedicated regex handlers before this one; anything else
falls through to the final branch, which does nothing further. -/
def inline_button_handler (s : BotState) (uid now curMsgId : Nat)
    (data : String) (voiceMsgId optionsMsgId : Nat) : BotState × Reply :=
  let s1 := cleanup_old_messages (update_user_activity s uid now) uid
    (some curMsgId)
  if data == ("start_bot") then start_bot s1 uid
  else if data == ("unlock_vault") then unlock_vault s1 uid
  else if data == ("new_memo") then new_memo_handler s1 uid
  else if data == ("my_memos") then my_memos_handler s1 uid
  else if data == ("help") then (s1, Reply.helpShown)
  else if data == ("lock_vault") then lock_handler s1 uid
  else if data == ("back_to_menu") then (s1, Reply.menuShown)
  else if data == ("back_to_memos") then my_memos_handler s1 uid
  else if pyStartsWith data ("listen_") then
    listen_memo_handler s1 uid data curMsgId voiceMsgId optionsMsgId
  else if pyStartsWith data ("delete_") then
    delete_memo_handler s1 uid data
  else (s1, Reply.noReply)

/-- Outcome of the external speech-to-text call of Vault.py. -/
inductive ApiResult where
  | ok (text : String) (language : String)
  | rateLimited
  | apiError (msg : String)
deriving DecidableEq

/-- The part of Vault.py transcribe_memo_handler from the external call on:
strip the returned text, reject an empty result, otherwise store it.  The
Bool reports that the external endpoint was called. -/
def transcribe_call (s : BotState) (uid mid : Nat) (api : ApiResult) :
    BotState × Reply × Bool :=
  match api with
  | ApiResult.ok text _ =>
    let t := pyStrip text
    if t == ("") then (s, Reply.transcriptionEmpty, true)
    else ({ s with db := set_transcription s.db mid uid t },
      Reply.transcriptionDone t, true)
  | ApiResult.rateLimited => (s, Reply.transcriptionFailed, true)
  | ApiResult.apiError _ => (s, Reply.transcriptionFailed, true)

/-- Vault.py VaultBot.transcribe_memo_handler: activity update, AI
configuration gate, id parse via split on the underscore, ownership check
via get_memo_file_id, cached-transcription check (row and row[0]: the stored
text must be non-NULL and non-empty), then the external call.  The Bool of
the result reports whether the external endpoint was called. -/
def transcribe_memo_handler (s : BotState) (uid now : Nat)
    (aiConfigured : Bool) (data : String) (api : ApiResult) :
    BotState × Reply × Bool :=
  let s1 := update_user_activity s uid now
  if !aiConfigured then (s1, Reply.aiNotConfigured, false)
  else
    match pyInt (String.mk ((splitOnChar (Char.ofNat 95) data.data).getD 1 [])) with
    | none => (s1, Reply.invalidMemoIdMessage, false)
    | some mid =>
      match get_memo_file_id s1.db mid uid with
      | none => (s1, Reply.memoNotFoundMessage, false)
      | some _ =>
        match get_transcription s1.db mid uid with
        | some (some t) =>
          if t != ("") then (s1, Reply.alreadyTranscribed t, false)
          else transcribe_call s1 uid mid api
        | _ => transcribe_call s1 uid mid api

/-- Vault.py module level: the LemonFox client is configured exactly when
the API key is present in the environment; otherwise only a warning is
logged. -/
def lemonfox_client_configured (key : Option String) : Bool :=
  key.isSome

/-- Vault.py VaultBot.init plus the module-level client setup: a missing
BOT_TOKEN raises ValueError (modelled as Except.error); with a token
present, startup completes and the AI feature is enabled exactly when the
key is present. -/
def vaultbot_startup (token key : Option String) : Except String Bool :=
  match token with
  | none => Except.error ("Bot token not found in environment variables")
  | some _ => Except.ok (lemonfox_client_configured key)

theorem mem_insertByDateDesc (m x : MemoRow) (l : List MemoRow) :
    x ∈ insertByDateDesc m l ↔ x = m ∨ x ∈ l := by
  induction l with
  | nil => simp [insertByDateDesc]
  | cons h t ih =>
    by_cases hc : h.date < m.date
    · simp only [insertByDateDesc, if_pos hc, List.mem_cons]
    · simp only [insertByDateDesc, if_neg hc, List.mem_cons, ih]
      tauto

theorem pairwise_insertByDateDesc (m : MemoRow) (l : List MemoRow)
    (h : l.Pairwise (fun a b => b.date ≤ a.date)) :
    (insertByDateDesc m l).Pairwise (fun a b => b.date ≤ a.date) := by
  induction l with
  | nil => simp [insertByDateDesc]
  | cons hd t ih =>
    rcases List.pairwise_cons.mp h with ⟨hhd, ht⟩
    by_cases hc : hd.date < m.date
    · simp only [insertByDateDesc, if_pos hc]
      refine List.pairwise_cons.mpr ⟨?_, h⟩
      intro y hy
      rcases List.mem_cons.mp hy with rfl | hyt
      · exact Nat.le_of_lt hc
      · exact Nat.le_trans (hhd y hyt) (Nat.le_of_lt hc)
    · simp only [insertByDateDesc, if_neg hc]
      refine List.pairwise_cons.mpr ⟨?_, ih ht⟩
      intro y hy
      rcases (mem_insertByDateDesc m y t).mp hy with rfl | hyt
      · exact Nat.le_of_not_lt hc
      · exact hhd y hyt

theorem pairwise_sortByDateDesc (l : List MemoRow) :
    (sortByDateDesc l).Pairwise (fun a b => b.date ≤ a.date) := by
  induction l with
  | nil => simp [sortByDateDesc]
  | cons h t ih => exact pairwise_insertByDateDesc h _ ih

theorem mem_sortByDateDesc (x : MemoRow) (l : List MemoRow) :
    x ∈ sortByDateDesc l ↔ x ∈ l := by
  induction l with
  | nil => simp [sortByDateDesc]
  | cons h t ih =>
    simp [sortByDateDesc, mem_insertByDateDesc, ih, List.mem_cons]

/-- C10: for every user, get_user_memos returns exactly that user's memos,
sorted by date in descending order (most recent first). -/
theorem C10_list_sorted_desc_and_scoped (db : DB) (uid : Nat) :
    (get_user_memos db uid).Pairwise (fun a b => b.date ≤ a.date)
    ∧ ∀ m : MemoRow,
        m ∈ get_user_memos db uid ↔ m ∈ db.memos ∧ m.user_id = uid := by
  constructor
  · exact pairwise_sortByDateDesc _
  · intro m
    simp [get_user_memos, mem_sortByDateDesc, List.mem_filter]

theorem find?_user_filter_append (l : List UserRow) (uid : Nat) (r : UserRow)
    (hr : (r.user_id == uid) = true) :
    ((l.filter (fun u => u.user_id != uid)) ++ [r]).find?
      (fun u => u.user_id == uid) = some r := by
  induction l with
  | nil => simp [List.find?, hr]
  | cons a t ih =>
    by_cases h : a.user_id = uid
    · simpa [List.filter_cons, h] using ih
    · simp [List.filter_cons, h, List.find?_cons, ih]

theorem lookup_user_after_set (db : DB) (uid : Nat) (password : String)
    (salt : Nat) :
    lookup_user (set_master_password db uid password salt).1 uid
      = some (UserRow.mk uid (hashpw password salt)) := by
  unfold lookup_user set_master_password
  exact find?_user_filter_append db.users uid _ (by simp)

/-- C3: after setting the master password to p, verifying with p succeeds
and verifying with any string q different from p fails. -/
theorem C3_set_then_verify (db : DB) (uid : Nat) (password q : String)
    (salt : Nat) (hq : q ≠ password) :
    (set_master_password db uid password salt).2 = true
    ∧ verify_master_password (set_master_password db uid password salt).1
        uid password = true
    ∧ verify_master_password (set_master_password db uid password salt).1
        uid q = false := by
  refine ⟨rfl, ?_, ?_⟩
  · rw [verify_master_password, lookup_user_after_set]
    simp [checkpw, hashpw]
  · rw [verify_master_password, lookup_user_after_set]
    simp [checkpw, hashpw, hq]

theorem C3_set_then_verify_witness :
    ("wrong" : String) ≠ ("secret1")
    ∧ ((set_master_password (DB.mk [] [] 1) 1 ("secret1") 0).2 = true
      ∧ verify_master_password
          (set_master_password (DB.mk [] [] 1) 1 ("secret1") 0).1 1
          ("secret1") = true
      ∧ verify_master_password
          (set_master_password (DB.mk [] [] 1) 1 ("secret1") 0).1 1
          ("wrong") = false) :=
  ⟨by decide, C3_set_then_verify (DB.mk [] [] 1) 1 ("secret1") ("wrong") 0
    (by decide)⟩

/-- C9: with no credential row stored for the user, verification returns
false for every password. -/
theorem C9_verify_without_row (db : DB) (uid : Nat) (password : String)
    (h : user_exists db uid = false) :
    verify_master_password db uid password = false := by
  cases hl : lookup_user db uid with
  | none => simp [verify_master_password, hl]
  | some r =>
    exfalso
    rw [user_exists, hl] at h
    simp at h

theorem C9_verify_without_row_witness :
    user_exists (DB.mk [] [] 1) 5 = false
    ∧ verify_master_password (DB.mk [] [] 1) 5 ("anything") = false :=
  ⟨by decide, C9_verify_without_row (DB.mk [] [] 1) 5 ("anything") (by decide)⟩

/-- C4: deleting a memo id that does not exist or belongs to another user
returns failure and leaves the database unchanged. -/
theorem C4_delete_missing_or_foreign (db : DB) (mid uid : Nat)
    (h : ∀ m ∈ db.memos, m.id = mid → m.user_id ≠ uid) :
    delete_memo db mid uid = (db, false) := by
  have hfilter :
      db.memos.filter (fun m => !(m.id == mid && m.user_id == uid))
        = db.memos := by
    apply List.filter_eq_self.mpr
    intro a ha
    by_cases h1 : a.id = mid
    · simp [h1, h a ha h1]
    · simp [h1]
  unfold delete_memo
  rw [hfilter]
  simp

theorem C4_delete_missing_or_foreign_witness :
    (∀ m ∈ (DB.mk [] [MemoRow.mk 1 2 ("f") 10 none none] 2).memos,
      m.id = 1 → m.user_id ≠ 3)
    ∧ delete_memo (DB.mk [] [MemoRow.mk 1 2 ("f") 10 none none] 2) 1 3
        = (DB.mk [] [MemoRow.mk 1 2 ("f") 10 none none] 2, false) :=
  ⟨by decide, C4_delete_missing_or_foreign
    (DB.mk [] [MemoRow.mk 1 2 ("f") 10 none none] 2) 1 3 (by decide)⟩

/-- C5: a password shorter than 6 characters is rejected before any
database write: the handler leaves the whole database (users table
included) unchanged and the user still has no stored credential. -/
theorem C5_short_password_writes_nothing (s : BotState) (uid : Nat)
    (password : String) (salt msgId : Nat) (h : password.length < 6) :
    (handle_password_input s uid password salt msgId).1.db = s.db
    ∧ (handle_password_input s uid password salt msgId).2
        = Reply.tooShortPassword
    ∧ user_exists (handle_password_input s uid password salt msgId).1.db uid
        = user_exists s.db uid := by
  unfold handle_password_input
  rw [if_pos h]
  exact ⟨rfl, rfl, rfl⟩

theorem C5_short_password_writes_nothing_witness :
    ("abc" : String).length < 6
    ∧ ((handle_password_input (BotState.mk (DB.mk [] [] 1) [] [] []) 7
          ("abc") 0 9).1.db = (BotState.mk (DB.mk [] [] 1) [] [] []).db
      ∧ (handle_password_input (BotState.mk (DB.mk [] [] 1) [] [] []) 7
          ("abc") 0 9).2 = Reply.tooShortPassword
      ∧ user_exists (handle_password_input
          (BotState.mk (DB.mk [] [] 1) [] [] []) 7 ("abc") 0 9).1.db 7
        = user_exists (BotState.mk (DB.mk [] [] 1) [] [] []).db 7) :=
  ⟨by decide, C5_short_password_writes_nothing
    (BotState.mk (DB.mk [] [] 1) [] [] []) 7 ("abc") 0 9 (by decide)⟩

theorem eq_of_mem_id_unique {l : List MemoRow}
    (hu : l.Pairwise (fun a b => a.id ≠ b.id)) {x y : MemoRow}
    (hx : x ∈ l) (hy : y ∈ l) (hxy : x.id = y.id) : x = y := by
  induction l with
  | nil => cases hx
  | cons a t ih =>
    rcases List.pairwise_cons.mp hu with ⟨ha, ht⟩
    rcases List.mem_cons.mp hx with rfl | hx2
    · rcases List.mem_cons.mp hy with rfl | hy2
      · rfl
      · exact absurd hxy (ha y hy2)
    · rcases List.mem_cons.mp hy with rfl | hy2
      · exact absurd hxy.symm (ha x hx2)
      · exact ih ht hx2 hy2

/-- C1: in a well-formed database (ids unique and below the autoincrement
counter), no operation of the bot changes the owner of an existing memo,
and neither the list nor the lookup of another user B ever returns a memo
owned by A. -/
theorem C1_owner_immutable_reads_scoped
    (db : DB) (op : DbOp) (m mm : MemoRow) (A B : Nat)
    (hbound : ∀ x ∈ db.memos, x.id < db.next_memo_id)
    (huniq : db.memos.Pairwise (fun a b => a.id ≠ b.id))
    (hm : m ∈ db.memos) (hA : m.user_id = A) (hB : B ≠ A)
    (hmm : mm ∈ (applyOp db op).memos) (hid : mm.id = m.id) :
    mm.user_id = A
    ∧ m ∉ get_user_memos db B
    ∧ memo_row db m.id B ≠ some m := by
  refine ⟨?_, ?_, ?_⟩
  · cases op with
    | setPassword u p sa =>
      have hmm2 : mm ∈ db.memos := hmm
      rw [eq_of_mem_id_unique huniq hmm2 hm hid, hA]
    | saveMemo u fid date =>
      rcases List.mem_append.mp hmm with h1 | h2
      · rw [eq_of_mem_id_unique huniq h1 hm hid, hA]
      · exfalso
        have h3 : mm = MemoRow.mk db.next_memo_id u fid date none none :=
          List.mem_singleton.mp h2
        have h4 : m.id < db.next_memo_id := hbound m hm
        rw [h3] at hid
        simp at hid
        omega
    | deleteMemo mid u =>
      have h1 : mm ∈ db.memos := (List.mem_filter.mp hmm).1
      rw [eq_of_mem_id_unique huniq h1 hm hid, hA]
    | writeTranscription mid u t =>
      rcases List.mem_map.mp hmm with ⟨x, hxmem, hfx⟩
      have hpid : mm.id = x.id := by
        rw [← hfx]
        by_cases hc : (x.id == mid && x.user_id == u) = true <;> simp [hc]
      have hpuid : mm.user_id = x.user_id := by
        rw [← hfx]
        by_cases hc : (x.id == mid && x.user_id == u) = true <;> simp [hc]
      rw [hpuid, eq_of_mem_id_unique huniq hxmem hm (hpid ▸ hid), hA]
    | writeSummary mid u t =>
      rcases List.mem_map.mp hmm with ⟨x, hxmem, hfx⟩
      have hpid : mm.id = x.id := by
        rw [← hfx]
        by_cases hc : (x.id == mid && x.user_id == u) = true <;> simp [hc]
      have hpuid : mm.user_id = x.user_id := by
        rw [← hfx]
        by_cases hc : (x.id == mid && x.user_id == u) = true <;> simp [hc]
      rw [hpuid, eq_of_mem_id_unique huniq hxmem hm (hpid ▸ hid), hA]
  · intro hmem
    rw [get_user_memos, mem_sortByDateDesc] at hmem
    have h1 : m.user_id = B := by
      have := (List.mem_filter.mp hmem).2
      simpa using this
    exact hB (by rw [← h1, hA])
  · intro heq
    have h1 := List.find?_some heq
    have h2 : m.user_id = B := by
      simp at h1
      tauto
    exact hB (by rw [← h2, hA])

theorem C1_owner_immutable_reads_scoped_witness :
    (∀ x ∈ (DB.mk [] [MemoRow.mk 1 1 ("f") 10 none none] 2).memos,
      x.id < (DB.mk [] [MemoRow.mk 1 1 ("f") 10 none none] 2).next_memo_id)
    ∧ (DB.mk [] [MemoRow.mk 1 1 ("f") 10 none none] 2).memos.Pairwise
        (fun a b => a.id ≠ b.id)
    ∧ MemoRow.mk 1 1 ("f") 10 none none
        ∈ (DB.mk [] [MemoRow.mk 1 1 ("f") 10 none none] 2).memos
    ∧ (MemoRow.mk 1 1 ("f") 10 none none).user_id = 1
    ∧ (2 : Nat) ≠ 1
    ∧ MemoRow.mk 1 1 ("f") 10 (some ("t")) none
        ∈ (applyOp (DB.mk [] [MemoRow.mk 1 1 ("f") 10 none none] 2)
            (DbOp.writeTranscription 1 1 ("t"))).memos
    ∧ (MemoRow.mk 1 1 ("f") 10 (some ("t")) none).id
        = (MemoRow.mk 1 1 ("f") 10 none none).id
    ∧ ((MemoRow.mk 1 1 ("f") 10 (some ("t")) none).user_id = 1
      ∧ MemoRow.mk 1 1 ("f") 10 none none
          ∉ get_user_memos (DB.mk [] [MemoRow.mk 1 1 ("f") 10 none none] 2) 2
      ∧ memo_row (DB.mk [] [MemoRow.mk 1 1 ("f") 10 none none] 2)
          (MemoRow.mk 1 1 ("f") 10 none none).id 2
        ≠ some (MemoRow.mk 1 1 ("f") 10 none none)) :=
  ⟨by decide, by decide, by decide, by decide, by decide, by decide, by decide,
    C1_owner_immutable_reads_scoped
      (DB.mk [] [MemoRow.mk 1 1 ("f") 10 none none] 2)
      (DbOp.writeTranscription 1 1 ("t"))
      (MemoRow.mk 1 1 ("f") 10 none none)
      (MemoRow.mk 1 1 ("f") 10 (some ("t")) none) 1 2
      (by decide) (by decide) (by decide) (by decide) (by decide) (by decide)
      (by decide)⟩

theorem cleanup_old_messages_db (s : BotState) (uid : Nat)
    (exclude : Option Nat) : (cleanup_old_messages s uid exclude).db = s.db := by
  unfold cleanup_old_messages
  cases mapLookup s.user_last_messages uid <;> rfl

theorem cleanup_old_messages_user_data (s : BotState) (uid : Nat)
    (exclude : Option Nat) :
    (cleanup_old_messages s uid exclude).user_data = s.user_data := by
  unfold cleanup_old_messages
  cases mapLookup s.user_last_messages uid <;> rfl

/-- C2: evidence of the divergence between code and spec at a concrete
run.  User 1 authenticates at time 0; at time 301 the inactivity sweep
fires and clears the activity entry (the code logs a vault lock here); yet
the authentication flag survives, and at time 302 the New Memo action is
served without any re-authentication. -/
theorem C2_sweep_leaves_user_authenticated :
    mapLookup (check_inactivity (BotState.mk
        (DB.mk [UserRow.mk 1 (hashpw ("secret1") 0)] [] 1)
        [(1, UserData.mk none true)] [(1, 0)] []) 301).user_activity 1 = none
    ∧ getUserData (check_inactivity (BotState.mk
        (DB.mk [UserRow.mk 1 (hashpw ("secret1") 0)] [] 1)
        [(1, UserData.mk none true)] [(1, 0)] []) 301) 1
      = UserData.mk none true
    ∧ (inline_button_handler (check_inactivity (BotState.mk
        (DB.mk [UserRow.mk 1 (hashpw ("secret1") 0)] [] 1)
        [(1, UserData.mk none true)] [(1, 0)] []) 301) 1 302 5 ("new_memo")
        6 7).2 = Reply.readyToRecord := by
  refine ⟨by decide, by decide, by decide⟩

/-- C7 counterexample: with the bot token absent from the environment and
the AI key present, startup does not complete: the constructor raises
ValueError instead of degrading. -/
theorem C7_counterexample_missing_token :
    vaultbot_startup none (some ("key"))
      = Except.error ("Bot token not found in environment variables")
    ∧ (vaultbot_startup none (some ("key"))).isOk = false := by
  exact ⟨rfl, rfl⟩

/-- C7 (amended): a missing AI-provider key only disables the AI feature
(with a logged warning) and startup completes; a missing bot token however
makes startup fail with a ValueError rather than degrade. -/
theorem C7_amended_token_fatal_key_optional (t : String)
    (key : Option String) :
    vaultbot_startup (some t) key = Except.ok key.isSome
    ∧ (vaultbot_startup none key).isOk = false := by
  exact ⟨rfl, rfl⟩

/-- C8 counterexample: the forged payload listen_x is rejected with the
toast, but the session state is not unmodified: the dispatcher has
refreshed the last-activity entry of the user before routing. -/
theorem C8_counterexample_activity_changes :
    (inline_button_handler (BotState.mk (DB.mk [] [] 1) [] [] []) 1 100 5
      ("listen_x") 6 7).2 = Reply.toastInvalidMemoId
    ∧ (inline_button_handler (BotState.mk (DB.mk [] [] 1) [] [] []) 1 100 5
        ("listen_x") 6 7).1.user_activity
      ≠ (BotState.mk (DB.mk [] [] 1) [] [] []).user_activity := by
  refine ⟨by decide, by decide⟩

/-- C8 (amended): a listen_ or delete_ payload whose memo id fails integer
parsing is rejected with a toast-style notice; no database row is read,
written or deleted, and the conversation state and authentication flag are
untouched; the only state change is the dispatch preamble run for every
callback (refreshing the last-activity timestamp and pruning tracked
messages). -/
theorem C8_amended_forged_payload_no_effect (s : BotState)
    (uid now cur v o : Nat) (dataL dataD : String)
    (hL : pyInt (pyReplace dataL ("listen_") ("")) = none)
    (hD : pyInt (pyReplace dataD ("delete_") ("")) = none) :
    listen_memo_handler s uid dataL cur v o = (s, Reply.toastInvalidMemoId)
    ∧ delete_memo_handler s uid dataD = (s, Reply.toastInvalidMemoId)
    ∧ inline_button_handler s uid now cur ("listen_x") v o
        = (cleanup_old_messages (update_user_activity s uid now) uid
            (some cur), Reply.toastInvalidMemoId)
    ∧ (inline_button_handler s uid now cur ("listen_x") v o).1.db = s.db
    ∧ getUserData (inline_button_handler s uid now cur ("listen_x") v o).1
        uid = getUserData s uid := by
  have h3 : inline_button_handler s uid now cur ("listen_x") v o
      = (cleanup_old_messages (update_user_activity s uid now) uid
          (some cur), Reply.toastInvalidMemoId) := rfl
  refine ⟨?_, ?_, h3, ?_, ?_⟩
  · simp only [listen_memo_handler, hL]
  · simp only [delete_memo_handler, hD]
  · rw [h3]
    simp only [cleanup_old_messages_db]
    rfl
  · rw [h3]
    simp only [getUserData, cleanup_old_messages_user_data]
    rfl

theorem C8_amended_forged_payload_no_effect_witness :
    pyInt (pyReplace ("listen_x") ("listen_") ("")) = none
    ∧ pyInt (pyReplace ("delete_y") ("delete_") ("")) = none
    ∧ (listen_memo_handler (BotState.mk (DB.mk [] [] 1) [] [] []) 1
        ("listen_x") 5 6 7
        = (BotState.mk (DB.mk [] [] 1) [] [] [], Reply.toastInvalidMemoId)
      ∧ delete_memo_handler (BotState.mk (DB.mk [] [] 1) [] [] []) 1
          ("delete_y")
        = (BotState.mk (DB.mk [] [] 1) [] [] [], Reply.toastInvalidMemoId)
      ∧ inline_button_handler (BotState.mk (DB.mk [] [] 1) [] [] []) 1 100 5
          ("listen_x") 6 7
        = (cleanup_old_messages (update_user_activity
            (BotState.mk (DB.mk [] [] 1) [] [] []) 1 100) 1 (some 5),
          Reply.toastInvalidMemoId)
      ∧ (inline_button_handler (BotState.mk (DB.mk [] [] 1) [] [] []) 1 100 5
          ("listen_x") 6 7).1.db = (BotState.mk (DB.mk [] [] 1) [] [] []).db
      ∧ getUserData (inline_button_handler
          (BotState.mk (DB.mk [] [] 1) [] [] []) 1 100 5 ("listen_x") 6 7).1 1
        = getUserData (BotState.mk (DB.mk [] [] 1) [] [] []) 1) :=
  ⟨by decide, by decide,
    C8_amended_forged_payload_no_effect (BotState.mk (DB.mk [] [] 1) [] [] [])
      1 100 5 6 7 ("listen_x") ("delete_y") (by decide) (by decide)⟩

theorem find?_map_set_transcription (l : List MemoRow) (mid uid : Nat)
    (t : String) :
    (l.map (fun m => if m.id == mid && m.user_id == uid
        then { m with transcription := some t } else m)).find?
      (fun m => m.id == mid && m.user_id == uid)
      = (l.find? (fun m => m.id == mid && m.user_id == uid)).map
          (fun m => { m with transcription := some t }) := by
  induction l with
  | nil => rfl
  | cons a l ih =>
    cases h : (a.id == mid && a.user_id == uid) with
    | true =>
      simp only [List.map_cons]
      rw [if_pos h]
      simp only [List.find?, h]
      rfl
    | false =>
      have hc : ¬((a.id == mid && a.user_id == uid) = true) := by
        simp [h]
      simp only [List.map_cons]
      rw [if_neg hc]
      simp only [List.find?, h]
      exact ih

theorem memo_row_set_transcription (db : DB) (mid uid : Nat) (t : String) :
    memo_row (set_transcription db mid uid t) mid uid
      = (memo_row db mid uid).map
          (fun m => { m with transcription := some t }) := by
  unfold memo_row set_transcription
  exact find?_map_set_transcription db.memos mid uid t

/-- C6: on a memo owned by the caller with no stored transcription, a first
transcribe invocation that succeeds calls the external endpoint and stores
the stripped text in the memo row; any subsequent transcribe invocation on
the same memo returns the stored text with the external-call flag false,
whatever the endpoint would now answer. -/
theorem C6_transcribe_stores_then_caches (s : BotState)
    (uid now1 now2 mid : Nat) (data text lang : String) (m : MemoRow)
    (api2 : ApiResult)
    (hparse : pyInt (String.mk ((splitOnChar (Char.ofNat 95) data.data).getD
      1 [])) = some mid)
    (hrow : memo_row s.db mid uid = some m)
    (hfresh : m.transcription = none)
    (htext : pyStrip text ≠ ("")) :
    (transcribe_memo_handler s uid now1 true data
        (ApiResult.ok text lang)).2
      = (Reply.transcriptionDone (pyStrip text), true)
    ∧ memo_row (transcribe_memo_handler s uid now1 true data
          (ApiResult.ok text lang)).1.db mid uid
        = some { m with transcription := some (pyStrip text) }
    ∧ transcribe_memo_handler (transcribe_memo_handler s uid now1 true data
          (ApiResult.ok text lang)).1 uid now2 true data api2
      = (update_user_activity (transcribe_memo_handler s uid now1 true data
          (ApiResult.ok text lang)).1 uid now2,
        Reply.alreadyTranscribed (pyStrip text), false) := by
  have hbe : (pyStrip text == ("")) = false := beq_eq_false_iff_ne.mpr htext
  have e1 : get_memo_file_id (update_user_activity s uid now1).db mid uid
      = some m.file_id := by
    show get_memo_file_id s.db mid uid = some m.file_id
    rw [get_memo_file_id, hrow]
    rfl
  have e2 : get_transcription (update_user_activity s uid now1).db mid uid
      = some none := by
    show get_transcription s.db mid uid = some none
    rw [get_transcription, hrow]
    simp [hfresh]
  have hfirst : transcribe_memo_handler s uid now1 true data
      (ApiResult.ok text lang)
      = ({ update_user_activity s uid now1 with
            db := set_transcription s.db mid uid (pyStrip text) },
        Reply.transcriptionDone (pyStrip text), true) := by
    simp only [transcribe_memo_handler, Bool.not_true, Bool.false_eq_true,
      if_false, hparse, e1, e2, transcribe_call, hbe]
    rfl
  have hrow2 : memo_row (set_transcription s.db mid uid (pyStrip text)) mid
      uid = some { m with transcription := some (pyStrip text) } := by
    rw [memo_row_set_transcription, hrow]
    rfl
  refine ⟨by rw [hfirst], by rw [hfirst]; exact hrow2, ?_⟩
  rw [hfirst]
  have e3 : get_memo_file_id (update_user_activity
      ({ update_user_activity s uid now1 with
          db := set_transcription s.db mid uid (pyStrip text) }) uid
      now2).db mid uid
      = some ({ m with transcription := some (pyStrip text) }
          : MemoRow).file_id := by
    show get_memo_file_id (set_transcription s.db mid uid (pyStrip text))
      mid uid = _
    rw [get_memo_file_id, hrow2]
    rfl
  have e4 : get_transcription (update_user_activity
      ({ update_user_activity s uid now1 with
          db := set_transcription s.db mid uid (pyStrip text) }) uid
      now2).db mid uid = some (some (pyStrip text)) := by
    show get_transcription (set_transcription s.db mid uid (pyStrip text))
      mid uid = _
    rw [get_transcription, hrow2]
    rfl
  have hne : ((pyStrip text != ("")) : Bool) = true := by
    simp [bne, hbe]
  simp only [transcribe_memo_handler, Bool.not_true, Bool.false_eq_true,
    if_false, hparse, e3, e4, hne, if_true]

theorem C6_transcribe_stores_then_caches_witness :
    pyInt (String.mk ((splitOnChar (Char.ofNat 95)
        ("transcribe_1").data).getD 1 [])) = some 1
    ∧ memo_row (BotState.mk (DB.mk [] [MemoRow.mk 1 1 ("f") 10 none none] 2)
        [] [] []).db 1 1 = some (MemoRow.mk 1 1 ("f") 10 none none)
    ∧ (MemoRow.mk 1 1 ("f") 10 none none).transcription = none
    ∧ pyStrip (" hello ") ≠ ("")
    ∧ ((transcribe_memo_handler (BotState.mk
          (DB.mk [] [MemoRow.mk 1 1 ("f") 10 none none] 2) [] [] []) 1 50
          true ("transcribe_1") (ApiResult.ok (" hello ") ("en"))).2
        = (Reply.transcriptionDone (pyStrip (" hello ")), true)
      ∧ memo_row (transcribe_memo_handler (BotState.mk
            (DB.mk [] [MemoRow.mk 1 1 ("f") 10 none none] 2) [] [] []) 1 50
            true ("transcribe_1") (ApiResult.ok (" hello ") ("en"))).1.db 1 1
          = some { MemoRow.mk 1 1 ("f") 10 none none with
              transcription := some (pyStrip (" hello ")) }
      ∧ transcribe_memo_handler (transcribe_memo_handler (BotState.mk
            (DB.mk [] [MemoRow.mk 1 1 ("f") 10 none none] 2) [] [] []) 1 50
            true ("transcribe_1") (ApiResult.ok (" hello ") ("en"))).1 1 60
            true ("transcribe_1") ApiResult.rateLimited
        = (update_user_activity (transcribe_memo_handler (BotState.mk
            (DB.mk [] [MemoRow.mk 1 1 ("f") 10 none none] 2) [] [] []) 1 50
            true ("transcribe_1") (ApiResult.ok (" hello ") ("en"))).1 1 60,
          Reply.alreadyTranscribed (pyStrip (" hello ")), false)) :=
  ⟨by decide, by decide, by decide, by decide,
    C6_transcribe_stores_then_caches (BotState.mk
      (DB.mk [] [MemoRow.mk 1 1 ("f") 10 none none] 2) [] [] []) 1 50 60 1
      ("transcribe_1") (" hello ") ("en") (MemoRow.mk 1 1 ("f") 10 none none)
      ApiResult.rateLimited (by decide) (by decide) (by decide) (by decide)⟩
